import Mathlib

/-
Verification development for the dating-bot backend (src/app.py).

The Flask routes are embedded as pure Lean functions over an explicit
database state.  Timestamps are modelled as Int seconds.  SQL tables are
modelled as Lean lists; a SERIAL column is modelled with an explicit
sequence counter in the state.  Columns of the users table that no modelled
route reads or writes (username, interests, is_premium, created_at,
updated_at) are omitted from the row type.  The nondeterministic
ORDER BY RANDOM() of the profile-discovery query is modelled by an explicit
shuffle parameter, together with the hypothesis that it only permutes or
selects from its input where a theorem needs that.
-/

/-- One row of the users table (the columns the modelled routes touch). -/
structure UserRow where
  id : Int
  name : String
  age : Option Int
  city : Option String
  bio : Option String
  photoData : Option (List Nat)
  dailyLikesUsed : Int
  lastLikeReset : Option Int
deriving DecidableEq

/-- One row of the tags table. -/
structure TagRow where
  id : Int
  name : String
  emoji : Option String
deriving DecidableEq

/-- One row of the chats table (id is the SERIAL primary key). -/
structure ChatRow where
  id : Int
  user1 : Int
  user2 : Int
deriving DecidableEq

/-- One row of the messages table (columns the modelled routes touch). -/
structure MessageRow where
  fromUser : Int
  chatId : Int
  text : String
deriving DecidableEq

/-- The database state: the tables of src/app.py plus the chats SERIAL
sequence. likes rows are (from_user, to_user); user_tags rows are
(user_id, tag_id). -/
structure DB where
  users : List UserRow
  likes : List (Int × Int)
  chats : List ChatRow
  messages : List MessageRow
  tags : List TagRow
  userTags : List (Int × Int)
  chatSeq : Int
deriving DecidableEq

/-- SELECT ... FROM users WHERE id = ? (fetch_one): first row with that id. -/
def findUser (st : DB) (uid : Int) : Option UserRow :=
  st.users.find? (fun u => decide (u.id = uid))

/-- A tag as serialized in responses (id, name, emoji). -/
structure TagOut where
  id : Int
  name : String
  emoji : Option String
deriving DecidableEq

/-- A profile as serialized by get_user and get_profiles. -/
structure Profile where
  id : Int
  name : String
  age : Option Int
  city : Option String
  bio : Option String
  tags : List TagOut
  photoUrl : String
deriving DecidableEq

/-- The photo_url string built by the handlers. -/
def photoUrl (uid : Int) : String :=
  "/api/photo/" ++ toString uid

/-- The user_tags JOIN tags query of get_user and get_profiles, for one
user: every user_tags row of the user joined with the tags row of the same
tag id. -/
def tagsOf (st : DB) (uid : Int) : List TagOut :=
  (st.userTags.filter (fun q => decide (q.1 = uid))).filterMap
    (fun q => (st.tags.find? (fun tg => decide (tg.id = q.2))).map
      (fun tg => { id := tg.id, name := tg.name, emoji := tg.emoji }))

/- ---------------------------------------------------------------------
base64 decoding, as used by create_user and upload_photo
(base64.b64decode after stripping a data-URL head before the first comma).
The failure cases approximate the padding errors CPython raises; characters
outside the base64 alphabet are discarded as CPython does in non-strict
mode. ---------------------------------------------------------------- -/

/-- The value of a base64 alphabet character, none for everything else. -/
def b64Val (c : Char) : Option Nat :=
  if 65 ≤ c.toNat ∧ c.toNat ≤ 90 then some (c.toNat - 65)
  else if 97 ≤ c.toNat ∧ c.toNat ≤ 122 then some (c.toNat - 97 + 26)
  else if 48 ≤ c.toNat ∧ c.toNat ≤ 57 then some (c.toNat - 48 + 52)
  else if c = '+' then some 62
  else if c = '/' then some 63
  else none

/-- Reassemble bytes from a list of 6-bit values. -/
def b64Quantum : List Nat → List Nat
  | a :: b :: c :: d :: rest =>
      (a * 4 + b / 16) :: ((b % 16) * 16 + c / 4) :: ((c % 4) * 64 + d) :: b64Quantum rest
  | [a, b] => [a * 4 + b / 16]
  | [a, b, c] => [a * 4 + b / 16, (b % 16) * 16 + c / 4]
  | _ => []

/-- base64.b64decode: keep alphabet and padding characters, require a
padded length that is a multiple of four, and fail when the data length is
one more than a multiple of four. -/
def b64decode (s : String) : Option (List Nat) :=
  let kept := s.data.filter (fun c => (b64Val c).isSome || decide (c = '='))
  let vals := kept.filterMap b64Val
  if kept.length % 4 ≠ 0 then none
  else if vals.length % 4 = 1 then none
  else some (b64Quantum vals)

/-- Characters before the next comma. -/
def untilComma : List Char → List Char
  | [] => []
  | c :: cs => if c = ',' then [] else c :: untilComma cs

/-- Characters between the first comma and the one after it. -/
def segAfterComma : List Char → List Char
  | [] => []
  | c :: cs => if c = ',' then untilComma cs else segAfterComma cs

/-- The data-URL stripping done before decoding: when the payload contains
a comma, keep the part between the first and second comma
(photo_base64.split(chr 44) at index 1). -/
def stripDataUrl (s : String) : String :=
  if s.data.contains ',' then ⟨segAfterComma s.data⟩ else s

/- ---------------------------------------------------------------------
reset_daily_likes ----------------------------------------------------- -/

/-- reset_daily_likes: look the user up; when the row exists and
last_like_reset is non-null and more than 86400 seconds old, zero
daily_likes_used and set last_like_reset to the current time. -/
def resetUsers (now : Int) (users : List UserRow) (uid : Int) : List UserRow :=
  match users.find? (fun u => decide (u.id = uid)) with
  | some u =>
    match u.lastLikeReset with
    | some t =>
      if 86400 < now - t then
        users.map (fun v =>
          if v.id = uid then { v with dailyLikesUsed := 0, lastLikeReset := some now } else v)
      else users
    | none => users
  | none => users

/-- reset_daily_likes lifted to the database state. -/
def reset_daily_likes (now : Int) (st : DB) (uid : Int) : DB :=
  { st with users := resetUsers now st.users uid }

/- ---------------------------------------------------------------------
GET /api/user/<user_id> ----------------------------------------------- -/

/-- A response of GET /api/user: the profile JSON, or the 404 error body. -/
inductive UserResp
  | ok (p : Profile)
  | err (msg : String)
deriving DecidableEq

/-- get_user: lookup by primary key; on a hit return id, name, age, city,
bio, the joined tags and the photo_url; otherwise a 404 with the error
body. -/
def get_user (st : DB) (uid : Int) : UserResp :=
  match findUser st uid with
  | some u =>
      UserResp.ok { id := u.id, name := u.name, age := u.age, city := u.city,
                    bio := u.bio, tags := tagsOf st uid, photoUrl := photoUrl uid }
  | none => UserResp.err "User not found"

/- ---------------------------------------------------------------------
POST /api/user --------------------------------------------------------- -/

/-- The JSON body of POST /api/user. id is data at key id (the claims
quantify over bodies that carry an id); the remaining keys are read with
data.get and may be absent. name is read with a plain indexing operation
and raises KeyError when absent. -/
structure UserBody where
  id : Int
  name : Option String
  age : Option Int
  city : Option String
  bio : Option String
  photoData : Option String
  tagIds : Option (List Int)
deriving DecidableEq

/-- The photo_data handling of create_user: absent or empty (falsy) means
NULL is stored; otherwise the data-URL head is stripped and the payload is
base64-decoded, a decoding error aborting the request (outer none). -/
def parsePhotoField : Option String → Option (Option (List Nat))
  | none => some none
  | some s =>
    if s = "" then some none
    else
      match b64decode (stripDataUrl s) with
      | some bs => some (some bs)
      | none => none

/-- INSERT INTO users ... ON CONFLICT (id) DO UPDATE: replace name, age,
city, bio and photo_data of an existing row, or append a fresh row with
the column defaults daily_likes_used = 0 and last_like_reset = now. -/
def upsertUser (users : List UserRow) (uid : Int) (nm : String) (age : Option Int)
    (city bio : Option String) (pd : Option (List Nat)) (now : Int) : List UserRow :=
  if users.any (fun u => decide (u.id = uid)) then
    users.map (fun u =>
      if u.id = uid then { u with name := nm, age := age, city := city, bio := bio, photoData := pd }
      else u)
  else
    users ++ [{ id := uid, name := nm, age := age, city := city, bio := bio,
                photoData := pd, dailyLikesUsed := 0, lastLikeReset := some now }]

/-- The tag_ids handling of create_user: a present, non-empty (truthy)
list first deletes the user_tags rows of the user and then inserts one row
per tag id. Foreign-key failures of the tags table are not modelled. -/
def setUserTags (st : DB) (uid : Int) : Option (List Int) → DB
  | none => st
  | some tids =>
    if tids = [] then st
    else { st with userTags := (st.userTags.filter (fun q => !decide (q.1 = uid)))
                               ++ tids.map (fun tg => (uid, tg)) }

/-- create_user: decode the photo, run the upsert, then rewrite the tag
rows; a missing name (KeyError) or an undecodable photo raises, is caught,
and the request ends with a 400 and no change to the tables. -/
def create_user (st : DB) (b : UserBody) (now : Int) : DB × Bool :=
  match b.name, parsePhotoField b.photoData with
  | some nm, some pd =>
      (setUserTags { st with users := upsertUser st.users b.id nm b.age b.city b.bio pd now }
        b.id b.tagIds, true)
  | _, _ => (st, false)

/- ---------------------------------------------------------------------
GET /api/profiles/<user_id> ------------------------------------------- -/

/-- users.age >= age_min AND users.age <= age_max; a NULL age fails both
comparisons. -/
def ageOk (age : Option Int) (amin amax : Int) : Bool :=
  match age with
  | some a => decide (amin ≤ a) && decide (a ≤ amax)
  | none => false

/-- Lexicographic comparison of character lists by code point. -/
def charListLe : List Char → List Char → Bool
  | [], _ => true
  | _ :: _, [] => false
  | a :: as, b :: bs => if a = b then charListLe as bs else decide (a.toNat < b.toNat)

/-- Occurrence of one character list at the head of another. -/
def startsWithSeq : List Char → List Char → Bool
  | [], _ => true
  | _ :: _, [] => false
  | a :: as, b :: bs => decide (a = b) && startsWithSeq as bs

/-- Occurrence of one character list anywhere inside another. -/
def containsSeq (pat : List Char) : List Char → Bool
  | [] => pat.isEmpty
  | b :: bs => startsWithSeq pat (b :: bs) || containsSeq pat bs

/-- users.city ILIKE the city parameter wrapped in percent signs:
case-insensitive substring match, applied only when the parameter is a
non-empty string; a NULL city fails the match. -/
def cityOk (ucity : Option String) (city : String) : Bool :=
  if city = "" then true
  else
    match ucity with
    | some c => containsSeq (city.data.map Char.toLower) (c.data.map Char.toLower)
    | none => false

/-- interacted_ids: the to_user of every like row of the requester, plus
the requester itself. -/
def interactedIds (likes : List (Int × Int)) (uid : Int) : List Int :=
  (likes.filter (fun q => decide (q.1 = uid))).map (fun q => q.2) ++ [uid]

/-- The WHERE clause of the discovery query. -/
def profilePass (amin amax : Int) (city : String) (notIn : List Int) (u : UserRow) : Bool :=
  (!decide (u.id ∈ notIn)) && ageOk u.age amin amax && cityOk u.city city

/-- The discovery query before ordering: the users rows passing the WHERE
clause. -/
def profile_query (users : List UserRow) (likes : List (Int × Int))
    (uid amin amax : Int) (city : String) : List UserRow :=
  users.filter (profilePass amin amax city (interactedIds likes uid))

/-- The serialization of one discovered row, with its tags attached. -/
def mkProfile (st : DB) (u : UserRow) : Profile :=
  { id := u.id, name := u.name, age := u.age, city := u.city, bio := u.bio,
    tags := tagsOf st u.id, photoUrl := photoUrl u.id }

/-- get_profiles: run reset_daily_likes, collect the interacted ids, filter
users by id, age and city, let ORDER BY RANDOM() (the shuffle parameter)
order them, keep at most 50, and attach tags and photo_url. -/
def get_profiles (shuffle : List UserRow → List UserRow) (st : DB)
    (uid amin amax : Int) (city : String) (now : Int) : List Profile :=
  let st1 := reset_daily_likes now st uid
  ((shuffle (profile_query st1.users st1.likes uid amin amax city)).take 50).map (mkProfile st1)

/- ---------------------------------------------------------------------
POST /api/like --------------------------------------------------------- -/

/-- The existence check behind INSERT INTO chats ... ON CONFLICT DO
NOTHING: a chats row with exactly these user columns. -/
def chatExistsB (st : DB) (u1 u2 : Int) : Bool :=
  st.chats.any (fun c => decide (c.user1 = u1) && decide (c.user2 = u2))

/-- INSERT INTO chats (user1_id, user2_id) VALUES (?, ?) ON CONFLICT DO
NOTHING: append a row with the next SERIAL id unless one with the same
user pair exists. -/
def insertChatIfAbsent (st : DB) (u1 u2 : Int) : DB :=
  if chatExistsB st u1 u2 then st
  else { st with chats := st.chats ++ [{ id := st.chatSeq, user1 := u1, user2 := u2 }],
                 chatSeq := st.chatSeq + 1 }

/-- The mutual-like step of like_profile, run after the like of the caller
is recorded: when the reverse row exists, insert the chat for the sorted
pair and report a match. -/
def likeStep (st1 : DB) (f t : Int) : DB × Bool :=
  if (t, f) ∈ st1.likes then (insertChatIfAbsent st1 (min f t) (max f t), true)
  else (st1, false)

/-- like_profile: a dislike deletes the like rows of the ordered pair and
reports no match; otherwise the like row is inserted unless it already
exists, and the mutual check runs on the resulting table. -/
def like_profile (st : DB) (f t : Int) (isDislike : Bool) : DB × Bool :=
  if isDislike then
    ({ st with likes := st.likes.filter (fun q => !(decide (q.1 = f) && decide (q.2 = t))) }, false)
  else
    likeStep { st with likes := if (f, t) ∈ st.likes then st.likes else st.likes ++ [(f, t)] } f t

/- ---------------------------------------------------------------------
messages --------------------------------------------------------------- -/

/-- GET /api/messages/<a>/<b>: look the chat of the sorted pair up and
return its messages (their stored order standing in for ORDER BY
created_at). -/
def get_messages (st : DB) (a b : Int) : List MessageRow :=
  match st.chats.find? (fun c => decide (c.user1 = min a b) && decide (c.user2 = max a b)) with
  | some ch => st.messages.filter (fun m => decide (m.chatId = ch.id))
  | none => []

/-- POST /api/message: look the chat of the sorted pair up; when absent,
insert it (the insert commits on its own) and select it again; then append
the message to the chat found.  The final branch, in which the re-select
finds nothing, is unreachable; in the source it would raise on indexing
None, ending in a 400 after the chat insert already committed. -/
def send_message (st : DB) (f t : Int) (txt : String) : DB × Bool :=
  match st.chats.find? (fun c => decide (c.user1 = min f t) && decide (c.user2 = max f t)) with
  | some ch => ({ st with messages := st.messages ++ [{ fromUser := f, chatId := ch.id, text := txt }] }, true)
  | none =>
    match (st.chats ++ [({ id := st.chatSeq, user1 := min f t, user2 := max f t } : ChatRow)]).find?
        (fun c => decide (c.user1 = min f t) && decide (c.user2 = max f t)) with
    | some ch =>
      ({ st with chats := st.chats ++ [{ id := st.chatSeq, user1 := min f t, user2 := max f t }],
                 messages := st.messages ++ [{ fromUser := f, chatId := ch.id, text := txt }],
                 chatSeq := st.chatSeq + 1 }, true)
    | none =>
      ({ st with chats := st.chats ++ [{ id := st.chatSeq, user1 := min f t, user2 := max f t }],
                 chatSeq := st.chatSeq + 1 }, false)

/- ---------------------------------------------------------------------
photos ----------------------------------------------------------------- -/

/-- POST /api/upload-photo: strip the data-URL head, decode, and UPDATE
the photo_data column of the row with the given id (an UPDATE matching no
row changes nothing and still reports success). -/
def upload_photo (st : DB) (uid : Int) (photoB64 : String) : DB × Bool :=
  match b64decode (stripDataUrl photoB64) with
  | some bs =>
      ({ st with users := st.users.map (fun u =>
          if u.id = uid then { u with photoData := some bs } else u) }, true)
  | none => (st, false)

/-- A response of GET /api/photo: the blob, or the empty 404 body. -/
inductive PhotoResp
  | bytes (bs : List Nat)
  | notFound
deriving DecidableEq

/-- get_photo: the handler selects photo_data, and in the branch where a
blob is present it calls io.BytesIO - but the io module is never imported
in src/app.py, so that call raises NameError, the bare except swallows it,
and the route falls through to the empty 404 return.  Every branch of the
handler therefore produces the 404 response. -/
def get_photo (st : DB) (uid : Int) : PhotoResp :=
  match findUser st uid with
  | some u =>
    match u.photoData with
    | some _ => PhotoResp.notFound
    | none => PhotoResp.notFound
  | none => PhotoResp.notFound

/- ---------------------------------------------------------------------
Telegram WebApp init-data validation.

Modelled from the spec: the spec describes a repeated request validation,
a Telegram WebApp init-data HMAC check, as a single deterministic
function.  No such check appears in src/app.py (BOT_TOKEN is read there
but never used), so the check is modelled here from the published Telegram
WebApp scheme the spec names: the secret key is HMAC-SHA256 of the bot
token with the key WebAppData, the data-check string is the init-data
pairs other than hash sorted by key and joined as key=value lines, and the
check compares the lowercase hex HMAC-SHA256 of that string against the
hash field. ------------------------------------------------------------ -/

/-- Two to the thirty-second, the modulus of 32-bit words. -/
def M32 : Nat := 4294967296

/-- Rotate a 32-bit word right by k bits. -/
def rotr32 (k x : Nat) : Nat := ((x >>> k) ||| (x <<< (32 - k))) % M32

/-- Bitwise complement on 32-bit words. -/
def not32 (x : Nat) : Nat := x ^^^ 4294967295

/-- The SHA-256 big sigma-0 function. -/
def bsig0 (x : Nat) : Nat := rotr32 2 x ^^^ rotr32 13 x ^^^ rotr32 22 x

/-- The SHA-256 big sigma-1 function. -/
def bsig1 (x : Nat) : Nat := rotr32 6 x ^^^ rotr32 11 x ^^^ rotr32 25 x

/-- The SHA-256 small sigma-0 function. -/
def ssig0 (x : Nat) : Nat := rotr32 7 x ^^^ rotr32 18 x ^^^ (x >>> 3)

/-- The SHA-256 small sigma-1 function. -/
def ssig1 (x : Nat) : Nat := rotr32 17 x ^^^ rotr32 19 x ^^^ (x >>> 10)

/-- The SHA-256 choose function. -/
def chF (e f g : Nat) : Nat := (e &&& f) ^^^ (not32 e &&& g)

/-- The SHA-256 majority function. -/
def majF (a b c : Nat) : Nat := (a &&& b) ^^^ (a &&& c) ^^^ (b &&& c)

/-- The 64 SHA-256 round constants, written in decimal. -/
def sha256K : List Nat :=
  [1116352408, 1899447441, 3049323471, 3921009573, 961987163, 1508970993,
   2453635748, 2870763221, 3624381080, 310598401, 607225278, 1426881987,
   1925078388, 2162078206, 2614888103, 3248222580, 3835390401, 4022224774,
   264347078, 604807628, 770255983, 1249150122, 1555081692, 1996064986,
   2554220882, 2821834349, 2952996808, 3210313671, 3336571891, 3584528711,
   113926993, 338241895, 666307205, 773529912, 1294757372, 1396182291,
   1695183700, 1986661051, 2177026350, 2456956037, 2730485921, 2820302411,
   3259730800, 3345764771, 3516065817, 3600352804, 4094571909, 275423344,
   430227734, 506948616, 659060556, 883997877, 958139571, 1322822218,
   1537002063, 1747873779, 1955562222, 2024104815, 2227730452, 2361852424,
   2428436474, 2756734187, 3204031479, 3329325298]

/-- The initial SHA-256 hash state, written in decimal. -/
def sha256H0 : List Nat :=
  [1779033703, 3144134277, 1013904242, 2773480762, 1359893119, 2600822924,
   528734635, 1541459225]

/-- A number as eight big-endian bytes. -/
def be64 (n : Nat) : List Nat :=
  [(n >>> 56) % 256, (n >>> 48) % 256, (n >>> 40) % 256, (n >>> 32) % 256,
   (n >>> 24) % 256, (n >>> 16) % 256, (n >>> 8) % 256, n % 256]

/-- SHA-256 padding: a one bit, zeros to 56 modulo 64, and the bit length. -/
def padMsg (m : List Nat) : List Nat :=
  m ++ [128] ++ List.replicate ((120 - (m.length + 1) % 64) % 64) 0 ++ be64 (8 * m.length)

/-- Split a list into chunks of n elements, with an explicit fuel bound. -/
def chunksOf (n : Nat) : Nat → List α → List (List α)
  | 0, _ => []
  | _, [] => []
  | fuel + 1, l => l.take n :: chunksOf n fuel (l.drop n)

/-- Big-endian bytes assembled into one number. -/
def bytesToWord (l : List Nat) : Nat := l.foldl (fun acc b => acc * 256 + b) 0

/-- Extend the 16 message-schedule words by the given number of rounds. -/
def extendW : Nat → List Nat → List Nat
  | 0, w => w
  | fuel + 1, w =>
    extendW fuel (w ++ [(ssig1 (w.getD (w.length - 2) 0) + w.getD (w.length - 7) 0 +
                         ssig0 (w.getD (w.length - 15) 0) + w.getD (w.length - 16) 0) % M32])

/-- One SHA-256 compression round on the eight-word working state. -/
def roundStep (st : List Nat) (kw : Nat × Nat) : List Nat :=
  let a := st.getD 0 0
  let b := st.getD 1 0
  let c := st.getD 2 0
  let d := st.getD 3 0
  let e := st.getD 4 0
  let f := st.getD 5 0
  let g := st.getD 6 0
  let h := st.getD 7 0
  let t1 := (h + bsig1 e + chF e f g + kw.1 + kw.2) % M32
  let t2 := (bsig0 a + majF a b c) % M32
  [(t1 + t2) % M32, a, b, c, (d + t1) % M32, e, f, g]

/-- Process one 64-byte block of the padded message. -/
def sha256Block (H : List Nat) (chunk : List Nat) : List Nat :=
  let w := extendW 48 ((chunksOf 4 chunk.length chunk).map bytesToWord)
  let st := (sha256K.zip w).foldl roundStep H
  (H.zip st).map (fun p => (p.1 + p.2) % M32)

/-- SHA-256 of a byte list, as 32 bytes. -/
def sha256 (m : List Nat) : List Nat :=
  let padded := padMsg m
  let hs := (chunksOf 64 padded.length padded).foldl sha256Block sha256H0
  hs.foldr (fun wd acc => [(wd >>> 24) % 256, (wd >>> 16) % 256, (wd >>> 8) % 256, wd % 256] ++ acc) []

/-- HMAC-SHA256 with the standard 64-byte block size. -/
def hmacSha256 (key msg : List Nat) : List Nat :=
  let k0 := if key.length > 64 then sha256 key else key
  let kp := k0 ++ List.replicate (64 - k0.length) 0
  sha256 ((kp.map (fun b => b ^^^ 0x5c)) ++ sha256 ((kp.map (fun b => b ^^^ 0x36)) ++ msg))

/-- The bytes of an ASCII string. -/
def strBytes (s : String) : List Nat := s.data.map Char.toNat

/-- The lowercase hex digit of a value below sixteen. -/
def hexDigit (n : Nat) : Char :=
  if n < 10 then Char.ofNat (48 + n) else Char.ofNat (87 + n)

/-- Lowercase hex serialization of a byte list. -/
def bytesToHex (l : List Nat) : String :=
  ⟨l.foldr (fun b acc => hexDigit (b / 16 % 16) :: hexDigit (b % 16) :: acc) []⟩

/-- Insertion of one pair into a key-sorted pair list. -/
def insertByKey (x : String × String) : List (String × String) → List (String × String)
  | [] => [x]
  | y :: ys => if charListLe x.1.data y.1.data then x :: y :: ys else y :: insertByKey x ys

/-- Pairs sorted by key. -/
def sortByKey (l : List (String × String)) : List (String × String) :=
  l.foldr insertByKey []

/-- The Telegram data-check string: the pairs other than hash, sorted by
key, rendered as key=value lines. -/
def dataCheckString (pairs : List (String × String)) : String :=
  String.intercalate "\n"
    ((sortByKey (pairs.filter (fun p => decide (p.1 ≠ "hash")))).map (fun p => p.1 ++ "=" ++ p.2))

/-- Modelled from the spec: the Telegram WebApp init-data HMAC check (no
such check exists in src/app.py).  The secret key is HMAC-SHA256 of the
bot token keyed with WebAppData; the check accepts when the lowercase hex
HMAC-SHA256 of the data-check string under that secret equals the supplied
hash field. -/
def validate_init_data (botToken : String) (pairs : List (String × String))
    (providedHash : String) : Bool :=
  decide (bytesToHex (hmacSha256 (hmacSha256 (strBytes "WebAppData") (strBytes botToken))
                        (strBytes (dataCheckString pairs))) = providedHash)

/- ---------------------------------------------------------------------
The tag-overlap metric of the spec sentence on profile discovery.  This
definition follows the words of the spec, not the code: the number of tag
ids two users share in the user_tags table.  The discovery route itself
never computes it. ----------------------------------------------------- -/

/-- Number of user_tags rows of user a whose tag id user b also has. -/
def sharedTagCount (st : DB) (a b : Int) : Nat :=
  (((st.userTags.filter (fun q => decide (q.1 = a))).map (fun q => q.2)).filter
    (fun tg => decide (tg ∈ (st.userTags.filter (fun q => decide (q.1 = b))).map (fun q => q.2)))).length

/- ---------------------------------------------------------------------
Helper lemmas ---------------------------------------------------------- -/

/-- Finding by id commutes with an id-preserving update of the matching
rows. -/
theorem find_map_upd (uid : Int) (g : UserRow → UserRow)
    (hg : ∀ u, (g u).id = u.id) :
    ∀ l : List UserRow,
      (l.map (fun u => if u.id = uid then g u else u)).find? (fun u => decide (u.id = uid)) =
        (l.find? (fun u => decide (u.id = uid))).map g := by
  intro l
  induction l with
  | nil => rfl
  | cons u t ih =>
    by_cases h : u.id = uid
    · rw [List.map_cons, if_pos h,
        List.find?_cons_of_pos _ (by simp [hg u, h]),
        List.find?_cons_of_pos _ (by simp [h]), Option.map_some']
    · rw [List.map_cons, if_neg h,
        List.find?_cons_of_neg _ (by simp [h]),
        List.find?_cons_of_neg _ (by simp [h]), ih]

/-- When a predicate holds somewhere in a list, find? returns a hit. -/
theorem find_of_any {α : Type} (p : α → Bool) :
    ∀ l : List α, l.any p = true → ∃ x, l.find? p = some x ∧ p x = true := by
  intro l
  induction l with
  | nil => intro h; cases h
  | cons a t ih =>
    intro h
    by_cases ha : p a = true
    · exact ⟨a, List.find?_cons_of_pos _ ha, ha⟩
    · rw [List.any_cons] at h
      rcases Bool.or_eq_true_iff.mp h with h1 | h2
      · exact absurd h1 ha
      · obtain ⟨x, hx, hpx⟩ := ih h2
        exact ⟨x, by rw [List.find?_cons_of_neg _ ha, hx], hpx⟩

/-- find? skips a head block in which it finds nothing. -/
theorem find_append_none {α : Type} {p : α → Bool} :
    ∀ {l1 : List α}, l1.find? p = none → ∀ l2 : List α, (l1 ++ l2).find? p = l2.find? p := by
  intro l1
  induction l1 with
  | nil => intro _ l2; rfl
  | cons a t ih =>
    intro h l2
    by_cases ha : p a = true
    · rw [List.find?_cons_of_pos _ ha] at h; cases h
    · rw [List.find?_cons_of_neg _ ha] at h
      rw [List.cons_append, List.find?_cons_of_neg _ ha, ih h]

/-- setUserTags never changes the users table. -/
theorem setUserTags_users (st : DB) (uid : Int) (o : Option (List Int)) :
    (setUserTags st uid o).users = st.users := by
  cases o with
  | none => rfl
  | some tids =>
    by_cases h : tids = []
    · simp [setUserTags, h]
    · simp [setUserTags, h]

/-- The mutual-like step never changes the likes table. -/
theorem likeStep_likes (st1 : DB) (f t : Int) : (likeStep st1 f t).1.likes = st1.likes := by
  unfold likeStep insertChatIfAbsent
  split
  · split <;> rfl
  · rfl

/-- The mutual-like step reports a match exactly when the reverse row is
present. -/
theorem likeStep_flag (st1 : DB) (f t : Int) :
    (likeStep st1 f t).2 = true ↔ (t, f) ∈ st1.likes := by
  unfold likeStep
  split
  · rename_i h; simp [h]
  · rename_i h; simp [h]

/-- A non-dislike request is the recording of the like of the caller
followed by the mutual-like step. -/
theorem like_profile_false_eq (st : DB) (f t : Int) :
    like_profile st f t false =
      likeStep { st with likes := if (f, t) ∈ st.likes then st.likes else st.likes ++ [(f, t)] } f t :=
  rfl

/-- The likes table after the non-dislike branch of like_profile: the row
of the caller is appended unless it is already present. -/
theorem like_profile_likes (st : DB) (f t : Int) :
    (like_profile st f t false).1.likes =
      if (f, t) ∈ st.likes then st.likes else st.likes ++ [(f, t)] := by
  rw [like_profile_false_eq, likeStep_likes]

/-- The match flag of the non-dislike branch: set exactly when the reverse
row is in the post-insert likes table. -/
theorem like_profile_flag (st : DB) (f t : Int) :
    (like_profile st f t false).2 = true ↔
      (t, f) ∈ (if (f, t) ∈ st.likes then st.likes else st.likes ++ [(f, t)]) := by
  rw [like_profile_false_eq, likeStep_flag]

/-- The chats table after a reported match: the sorted-pair row is
appended exactly when no identical row exists. -/
theorem likeStep_chats (st1 : DB) (f t : Int) (h : (likeStep st1 f t).2 = true) :
    (chatExistsB st1 (min f t) (max f t) = false →
      (likeStep st1 f t).1.chats =
        st1.chats ++ [{ id := st1.chatSeq, user1 := min f t, user2 := max f t }]) ∧
    (chatExistsB st1 (min f t) (max f t) = true → (likeStep st1 f t).1.chats = st1.chats) := by
  by_cases hm : (t, f) ∈ st1.likes
  · unfold likeStep
    rw [if_pos hm]
    constructor
    · intro hc
      simp [insertChatIfAbsent, hc]
    · intro hc
      simp [insertChatIfAbsent, hc]
  · unfold likeStep at h
    rw [if_neg hm] at h
    cases h

/-- A state with one like row awaiting its reverse: user 2 already likes
user 1, no chats exist yet. -/
def dbLike : DB :=
  { users := [], likes := [(2, 1)], chats := [], messages := [], tags := [],
    userTags := [], chatSeq := 1 }

/-- Claim C1: for a like request (dislike false), the response reports a
match exactly when the reverse like row is present in the likes table
after the like of the caller is recorded, and on a match the chat row of
the sorted pair is created exactly when no identical chat row already
exists. -/
theorem like_detects_mutual (st : DB) (f t : Int) :
    ((like_profile st f t false).2 = true ↔ (t, f) ∈ (like_profile st f t false).1.likes) ∧
    ((like_profile st f t false).2 = true →
      (chatExistsB st (min f t) (max f t) = false →
        (like_profile st f t false).1.chats =
          st.chats ++ [{ id := st.chatSeq, user1 := min f t, user2 := max f t }]) ∧
      (chatExistsB st (min f t) (max f t) = true →
        (like_profile st f t false).1.chats = st.chats)) := by
  constructor
  · rw [like_profile_likes]
    exact like_profile_flag st f t
  · intro hm
    rw [like_profile_false_eq] at hm ⊢
    exact likeStep_chats _ f t hm

/-- Witness for C1 at a concrete state: user 1 likes user 2 while the
reverse row is already stored. -/
theorem like_detects_mutual_witness :
    ((like_profile dbLike 1 2 false).2 = true ↔ (2, 1) ∈ (like_profile dbLike 1 2 false).1.likes) ∧
    ((like_profile dbLike 1 2 false).2 = true →
      (chatExistsB dbLike (min 1 2) (max 1 2) = false →
        (like_profile dbLike 1 2 false).1.chats =
          dbLike.chats ++ [{ id := dbLike.chatSeq, user1 := min 1 2, user2 := max 1 2 }]) ∧
      (chatExistsB dbLike (min 1 2) (max 1 2) = true →
        (like_profile dbLike 1 2 false).1.chats = dbLike.chats)) :=
  like_detects_mutual dbLike 1 2

/-- A state with one like row already present, for the idempotence claim. -/
def dbLiked : DB :=
  { users := [], likes := [(1, 2)], chats := [], messages := [], tags := [],
    userTags := [], chatSeq := 1 }

/-- Claim C9: the like endpoint inserts the like row only when absent, so
a repeated like of the same ordered pair leaves the likes table unchanged
and at most one row per ordered pair is ever created. -/
theorem like_idempotent (st : DB) (f t : Int) :
    ((f, t) ∈ st.likes → (like_profile st f t false).1.likes = st.likes) ∧
    ((f, t) ∉ st.likes → (like_profile st f t false).1.likes = st.likes ++ [(f, t)]) ∧
    (like_profile (like_profile st f t false).1 f t false).1.likes =
      (like_profile st f t false).1.likes := by
  refine ⟨fun h => by rw [like_profile_likes, if_pos h],
          fun h => by rw [like_profile_likes, if_neg h], ?_⟩
  have hmem : (f, t) ∈ (like_profile st f t false).1.likes := by
    rw [like_profile_likes]
    by_cases h : (f, t) ∈ st.likes
    · rw [if_pos h]; exact h
    · rw [if_neg h]
      exact List.mem_append_right _ (List.mem_singleton_self _)
  rw [like_profile_likes (like_profile st f t false).1 f t, if_pos hmem]

/-- Witness for C9 at a concrete state holding the like row already. -/
theorem like_idempotent_witness :
    ((1, 2) ∈ dbLiked.likes → (like_profile dbLiked 1 2 false).1.likes = dbLiked.likes) ∧
    ((1, 2) ∉ dbLiked.likes → (like_profile dbLiked 1 2 false).1.likes = dbLiked.likes ++ [(1, 2)]) ∧
    (like_profile (like_profile dbLiked 1 2 false).1 1 2 false).1.likes =
      (like_profile dbLiked 1 2 false).1.likes :=
  like_idempotent dbLiked 1 2

/-- Any chat row present after the mutual-like step was already there or
is the freshly inserted sorted pair. -/
theorem likeStep_chats_mem (st1 : DB) (f t : Int) (c : ChatRow) :
    c ∈ (likeStep st1 f t).1.chats → c ∈ st1.chats ∨ c.user1 ≤ c.user2 := by
  unfold likeStep insertChatIfAbsent
  split
  · split
    · intro hc; exact Or.inl hc
    · intro hc
      rcases List.mem_append.mp hc with h1 | h2
      · exact Or.inl h1
      · right
        rw [List.mem_singleton] at h2
        subst h2
        exact min_le_max
  · intro hc; exact Or.inl hc

/-- The chat row the concrete C8 scenarios create. -/
def chat0 : ChatRow := { id := 1, user1 := 1, user2 := 2 }

/-- Claim C8: every chat row the like endpoint or the message endpoint
inserts carries its user pair sorted (user1_id at most user2_id), and the
message lookup is by the sorted pair, hence symmetric in its two users. -/
theorem chats_normalized (st : DB) (f t : Int) (d : Bool) (txt : String) (c : ChatRow) :
    (c ∈ (like_profile st f t d).1.chats → c ∈ st.chats ∨ c.user1 ≤ c.user2) ∧
    (c ∈ (send_message st f t txt).1.chats → c ∈ st.chats ∨ c.user1 ≤ c.user2) ∧
    get_messages st f t = get_messages st t f := by
  refine ⟨?_, ?_, ?_⟩
  · cases d with
    | false =>
      rw [like_profile_false_eq]
      exact likeStep_chats_mem _ f t c
    | true =>
      intro hc
      exact Or.inl hc
  · unfold send_message
    split
    · intro hc; exact Or.inl hc
    · split
      · intro hc
        rcases List.mem_append.mp hc with h1 | h2
        · exact Or.inl h1
        · right; rw [List.mem_singleton] at h2; subst h2; exact min_le_max
      · intro hc
        rcases List.mem_append.mp hc with h1 | h2
        · exact Or.inl h1
        · right; rw [List.mem_singleton] at h2; subst h2; exact min_le_max
  · unfold get_messages
    simp only [Int.min_comm t f, Int.max_comm t f]

/-- Witness for C8: on a concrete state both endpoints create the sorted
chat row for the pair of users 1 and 2. -/
theorem chats_normalized_witness :
    chat0 ∈ (like_profile dbLike 1 2 false).1.chats ∧
    chat0 ∈ (send_message dbLike 1 2 "hi").1.chats ∧
    (chat0 ∈ dbLike.chats ∨ chat0.user1 ≤ chat0.user2) ∧
    get_messages dbLike 1 2 = get_messages dbLike 2 1 :=
  ⟨by decide, by decide,
   (chats_normalized dbLike 1 2 false "hi" chat0).1 (by decide),
   (chats_normalized dbLike 1 2 false "hi" chat0).2.2⟩

/-- The user row of the daily-reset scenario: three likes used, counter
last reset at time zero. -/
def uReset : UserRow :=
  { id := 1, name := "A", age := none, city := none, bio := none, photoData := none,
    dailyLikesUsed := 3, lastLikeReset := some 0 }

/-- The state of the daily-reset scenario. -/
def dbReset : DB :=
  { users := [uReset], likes := [], chats := [], messages := [], tags := [],
    userTags := [], chatSeq := 1 }

/-- Claim C4: for an existing user with a non-null last_like_reset, the
reset step zeroes daily_likes_used and moves last_like_reset to the
current time when more than 86400 seconds have elapsed, and otherwise
leaves the whole state unchanged. -/
theorem daily_reset_24h (now : Int) (st : DB) (uid : Int) (u : UserRow) (t : Int)
    (hu : findUser st uid = some u) (ht : u.lastLikeReset = some t) :
    (86400 < now - t →
      findUser (reset_daily_likes now st uid) uid =
        some { u with dailyLikesUsed := 0, lastLikeReset := some now }) ∧
    (¬ 86400 < now - t → reset_daily_likes now st uid = st) := by
  have hu2 : st.users.find? (fun v => decide (v.id = uid)) = some u := hu
  constructor
  · intro hlt
    show (resetUsers now st.users uid).find? (fun v => decide (v.id = uid)) = _
    simp only [resetUsers, hu2, ht]
    rw [if_pos hlt,
      find_map_upd uid (fun v => { v with dailyLikesUsed := 0, lastLikeReset := some now })
        (fun v => rfl) st.users, hu2, Option.map_some']
  · intro hge
    unfold reset_daily_likes
    simp only [resetUsers, hu2, ht]
    rw [if_neg hge]

/-- Witness for C4: the concrete user of dbReset, 90000 seconds after its
reset time, is reset; at 1000 seconds nothing changes. -/
theorem daily_reset_24h_witness :
    findUser dbReset 1 = some uReset ∧ uReset.lastLikeReset = some 0 ∧
    ((86400 < (90000 : Int) - 0 →
      findUser (reset_daily_likes 90000 dbReset 1) 1 =
        some { uReset with dailyLikesUsed := 0, lastLikeReset := some 90000 }) ∧
     (¬ 86400 < (90000 : Int) - 0 → reset_daily_likes 90000 dbReset 1 = dbReset)) :=
  ⟨rfl, rfl, daily_reset_24h 90000 dbReset 1 uReset 0 rfl rfl⟩

/-- The user row of the lookup scenario. -/
def uUser : UserRow :=
  { id := 1, name := "Ann", age := some 20, city := none, bio := none, photoData := none,
    dailyLikesUsed := 0, lastLikeReset := none }

/-- The state of the lookup scenario: one user with one tag. -/
def dbUser : DB :=
  { users := [uUser], likes := [], chats := [], messages := [],
    tags := [{ id := 4, name := "Music", emoji := none }], userTags := [(1, 4)], chatSeq := 1 }

/-- Claim C7: GET /api/user is a primary-key lookup: a hit returns the
row fields with the joined tags, and the 404 error body is returned
exactly when no row with the id exists. -/
theorem get_user_pk (st : DB) (uid : Int) :
    (get_user st uid = UserResp.err "User not found" ↔ findUser st uid = none) ∧
    (∀ u, findUser st uid = some u →
      get_user st uid =
        UserResp.ok { id := u.id, name := u.name, age := u.age, city := u.city,
                      bio := u.bio, tags := tagsOf st uid, photoUrl := photoUrl uid }) := by
  cases h : findUser st uid with
  | some u =>
    refine ⟨?_, ?_⟩
    · simp [get_user, h]
    · intro v hv
      obtain rfl : u = v := Option.some.inj hv
      simp [get_user, h]
  | none =>
    refine ⟨?_, ?_⟩
    · simp [get_user, h]
    · intro v hv
      cases hv

/-- Witness for C7: user 1 of dbUser is found with its tag; user 2 gives
the 404 body. -/
theorem get_user_pk_witness :
    findUser dbUser 1 = some uUser ∧
    get_user dbUser 1 =
      UserResp.ok { id := uUser.id, name := uUser.name, age := uUser.age, city := uUser.city,
                    bio := uUser.bio, tags := tagsOf dbUser 1, photoUrl := photoUrl 1 } ∧
    (get_user dbUser 2 = UserResp.err "User not found" ↔ findUser dbUser 2 = none) :=
  ⟨rfl, (get_user_pk dbUser 1).2 uUser rfl, (get_user_pk dbUser 2).1⟩

/-- The empty database. -/
def dbEmpty : DB :=
  { users := [], likes := [], chats := [], messages := [], tags := [], userTags := [], chatSeq := 1 }

/-- A request body carrying an id but no name. -/
def bodyNoName : UserBody :=
  { id := 1, name := none, age := some 30, city := none, bio := none,
    photoData := none, tagIds := none }

/-- A request body whose photo_data is not decodable base64. -/
def bodyBadPhoto : UserBody :=
  { id := 2, name := some "Bea", age := none, city := none, bio := none,
    photoData := some "A", tagIds := none }

/-- Counterexample to C5 as stated: a body with an id but no name raises
KeyError and inserts nothing, and a body with an id, a name and an
undecodable photo_data raises in base64 decoding and inserts nothing; in
both cases no users row with the id exists afterwards. -/
theorem create_user_requires_fields :
    findUser (create_user dbEmpty bodyNoName 0).1 1 = none ∧
    findUser (create_user dbEmpty bodyBadPhoto 0).1 2 = none :=
  ⟨by decide, by decide⟩

/-- Claim C5 (amended): for a request body with an id, a name, and a
photo_data field the photo parsing accepts, the upsert leaves the row of
that id holding the supplied name, age, city, bio and decoded photo bytes;
a fresh id grows the users table by one row and an existing id keeps its
size. -/
theorem upsert_by_pk (st : DB) (b : UserBody) (now : Int) (nm : String) (pd : Option (List Nat))
    (hn : b.name = some nm) (hp : parsePhotoField b.photoData = some pd) :
    (∃ u, findUser (create_user st b now).1 b.id = some u ∧
      u.name = nm ∧ u.age = b.age ∧ u.city = b.city ∧ u.bio = b.bio ∧ u.photoData = pd) ∧
    (findUser st b.id = none → (create_user st b now).1.users.length = st.users.length + 1) ∧
    (findUser st b.id ≠ none → (create_user st b now).1.users.length = st.users.length) := by
  have hc : (create_user st b now).1 =
      setUserTags { st with users := upsertUser st.users b.id nm b.age b.city b.bio pd now }
        b.id b.tagIds := by
    simp only [create_user, hn, hp]
  have husers : (create_user st b now).1.users =
      upsertUser st.users b.id nm b.age b.city b.bio pd now := by
    rw [hc, setUserTags_users]
  have hfind : findUser (create_user st b now).1 b.id =
      (upsertUser st.users b.id nm b.age b.city b.bio pd now).find?
        (fun v => decide (v.id = b.id)) := by
    unfold findUser
    rw [husers]
  cases hany : st.users.any (fun v => decide (v.id = b.id)) with
  | true =>
    obtain ⟨u0, hu0, hpu0⟩ := find_of_any _ st.users hany
    have hup : upsertUser st.users b.id nm b.age b.city b.bio pd now =
        st.users.map (fun u =>
          if u.id = b.id then { u with name := nm, age := b.age, city := b.city,
                                       bio := b.bio, photoData := pd }
          else u) := by
      unfold upsertUser
      rw [if_pos hany]
    have hsome : findUser st b.id = some u0 := hu0
    refine ⟨?_, ?_, ?_⟩
    · refine ⟨{ u0 with name := nm, age := b.age, city := b.city, bio := b.bio, photoData := pd },
        ?_, rfl, rfl, rfl, rfl, rfl⟩
      rw [hfind, hup,
        find_map_upd b.id (fun u => { u with name := nm, age := b.age, city := b.city,
                                             bio := b.bio, photoData := pd }) (fun u => rfl) st.users,
        hu0, Option.map_some']
    · intro hnone
      rw [hsome] at hnone
      cases hnone
    · intro _
      rw [husers, hup, List.length_map]
  | false =>
    have hnone : st.users.find? (fun v => decide (v.id = b.id)) = none := by
      rw [List.find?_eq_none]
      intro x hx hpx
      have h2 : st.users.any (fun v => decide (v.id = b.id)) = true :=
        List.any_eq_true.mpr ⟨x, hx, hpx⟩
      rw [hany] at h2
      cases h2
    have hup : upsertUser st.users b.id nm b.age b.city b.bio pd now =
        st.users ++ [{ id := b.id, name := nm, age := b.age, city := b.city, bio := b.bio,
                       photoData := pd, dailyLikesUsed := 0, lastLikeReset := some now }] := by
      simp [upsertUser, hany]
    refine ⟨?_, ?_, ?_⟩
    · refine ⟨{ id := b.id, name := nm, age := b.age, city := b.city, bio := b.bio,
                photoData := pd, dailyLikesUsed := 0, lastLikeReset := some now },
        ?_, rfl, rfl, rfl, rfl, rfl⟩
      rw [hfind, hup, find_append_none hnone]
      exact List.find?_cons_of_pos _ (by simp)
    · intro _
      rw [husers, hup]
      simp
    · intro hne
      exact absurd hnone hne

/-- A complete request body with a decodable photo (QUJD is the base64 of
the bytes 65 66 67). -/
def bodyFull : UserBody :=
  { id := 7, name := some "Ann", age := some 30, city := some "Oslo", bio := none,
    photoData := some "QUJD", tagIds := some [4] }

/-- Witness for C5: posting bodyFull on the empty database inserts the
row with the supplied values and the decoded photo. -/
theorem upsert_by_pk_witness :
    bodyFull.name = some "Ann" ∧
    parsePhotoField bodyFull.photoData = some (some [65, 66, 67]) ∧
    ((∃ u, findUser (create_user dbEmpty bodyFull 5).1 bodyFull.id = some u ∧
        u.name = "Ann" ∧ u.age = bodyFull.age ∧ u.city = bodyFull.city ∧
        u.bio = bodyFull.bio ∧ u.photoData = some [65, 66, 67]) ∧
     (findUser dbEmpty bodyFull.id = none →
       (create_user dbEmpty bodyFull 5).1.users.length = dbEmpty.users.length + 1) ∧
     (findUser dbEmpty bodyFull.id ≠ none →
       (create_user dbEmpty bodyFull 5).1.users.length = dbEmpty.users.length)) :=
  ⟨rfl, by decide, upsert_by_pk dbEmpty bodyFull 5 "Ann" (some [65, 66, 67]) rfl (by decide)⟩

/-- The state of the photo-bug scenario: one user without a photo yet. -/
def dbPhoto : DB :=
  { users := [{ id := 1, name := "P", age := none, city := none, bio := none,
                photoData := none, dailyLikesUsed := 0, lastLikeReset := none }],
    likes := [], chats := [], messages := [], tags := [], userTags := [], chatSeq := 1 }

/-- Claim C6, evaluated at the failing input: after uploading a photo for
user 1 the blob is stored in the users row, yet GET /api/photo/1 still
answers 404, because the stored-blob branch of the handler calls
io.BytesIO without the io module ever being imported, and the resulting
NameError is swallowed by the bare except into the 404 fallthrough. -/
theorem get_photo_bug :
    findUser (upload_photo dbPhoto 1 "QUJD").1 1 =
      some { id := 1, name := "P", age := none, city := none, bio := none,
             photoData := some [65, 66, 67], dailyLikesUsed := 0, lastLikeReset := none } ∧
    get_photo (upload_photo dbPhoto 1 "QUJD").1 1 = PhotoResp.notFound :=
  ⟨by decide, by decide⟩

/-- The discovery scenario: requester 1 already judged user 3; candidate 2
passes the filters. -/
def dbProf : DB :=
  { users := [{ id := 1, name := "Ann", age := some 20, city := none, bio := none,
                photoData := none, dailyLikesUsed := 0, lastLikeReset := none },
              { id := 2, name := "Bob", age := some 30, city := none, bio := none,
                photoData := none, dailyLikesUsed := 0, lastLikeReset := none }],
    likes := [(1, 3)], chats := [], messages := [], tags := [], userTags := [], chatSeq := 1 }

/-- The profile of candidate 2 as the discovery route serializes it. -/
def pBob : Profile :=
  { id := 2, name := "Bob", age := some 30, city := none, bio := none,
    tags := [], photoUrl := photoUrl 2 }

/-- Claim C10: whenever the shuffle standing in for ORDER BY RANDOM() only
reorders or selects from its input, every profile the discovery route
returns is neither the requester nor a user the requester already liked,
and its age lies within the requested bounds. -/
theorem discovery_filters (shuffle : List UserRow → List UserRow)
    (hs : ∀ l x, x ∈ shuffle l → x ∈ l)
    (st : DB) (uid amin amax : Int) (city : String) (now : Int) (p : Profile)
    (hp : p ∈ get_profiles shuffle st uid amin amax city now) :
    p.id ≠ uid ∧
    (∀ q ∈ st.likes, q.1 = uid → p.id ≠ q.2) ∧
    (∃ a, p.age = some a ∧ amin ≤ a ∧ a ≤ amax) := by
  simp only [get_profiles] at hp
  rw [List.mem_map] at hp
  obtain ⟨u, hu, hpu⟩ := hp
  have hu2 : u ∈ shuffle (profile_query (reset_daily_likes now st uid).users
      (reset_daily_likes now st uid).likes uid amin amax city) :=
    List.take_subset _ _ hu
  have hu3 := hs _ _ hu2
  unfold profile_query at hu3
  rw [List.mem_filter] at hu3
  obtain ⟨_, hpass⟩ := hu3
  unfold profilePass at hpass
  rw [Bool.and_eq_true, Bool.and_eq_true] at hpass
  obtain ⟨⟨hnot, hage⟩, _⟩ := hpass
  simp only [Bool.not_eq_true', decide_eq_false_iff_not] at hnot
  have hnotin : u.id ∉ interactedIds st.likes uid := hnot
  have hpid : p.id = u.id := by rw [← hpu]; rfl
  have hpage : p.age = u.age := by rw [← hpu]; rfl
  refine ⟨?_, ?_, ?_⟩
  · intro h
    apply hnotin
    rw [hpid] at h
    rw [h]
    exact List.mem_append_right _ (List.mem_singleton_self _)
  · intro q hq hq1 hcontra
    apply hnotin
    rw [hpid] at hcontra
    rw [hcontra]
    refine List.mem_append_left _ ?_
    exact List.mem_map.mpr ⟨q, List.mem_filter.mpr ⟨hq, by simp [hq1]⟩, rfl⟩
  · cases ha : u.age with
    | none =>
      rw [ha] at hage
      cases hage
    | some a =>
      rw [ha] at hage
      unfold ageOk at hage
      rw [Bool.and_eq_true, decide_eq_true_eq, decide_eq_true_eq] at hage
      exact ⟨a, by rw [hpage, ha], hage.1, hage.2⟩

/-- Witness for C10: with the identity shuffle on dbProf, candidate 2 is
returned and satisfies the filter guarantees. -/
theorem discovery_filters_witness :
    pBob ∈ get_profiles (fun l => l) dbProf 1 18 99 "" 0 ∧
    (pBob.id ≠ 1 ∧ (∀ q ∈ dbProf.likes, q.1 = 1 → pBob.id ≠ q.2) ∧
     (∃ a, pBob.age = some a ∧ 18 ≤ a ∧ a ≤ 99)) :=
  ⟨by decide,
   discovery_filters (fun l => l) (fun _ _ h => h) dbProf 1 18 99 "" 0 pBob (by decide)⟩

/-- The tag-overlap scenario: requester 1 shares two tag ids with user 3
and none with user 2, and the rows come back with user 2 first. -/
def dbOverlap : DB :=
  { users := [{ id := 1, name := "Me", age := some 25, city := none, bio := none,
                photoData := none, dailyLikesUsed := 0, lastLikeReset := none },
              { id := 2, name := "A", age := some 25, city := none, bio := none,
                photoData := none, dailyLikesUsed := 0, lastLikeReset := none },
              { id := 3, name := "B", age := some 25, city := none, bio := none,
                photoData := none, dailyLikesUsed := 0, lastLikeReset := none }],
    likes := [], chats := [], messages := [], tags := [],
    userTags := [(1, 10), (1, 11), (3, 10), (3, 11)], chatSeq := 1 }

/-- The serialization of user 2 in the overlap scenario. -/
def pOv2 : Profile :=
  { id := 2, name := "A", age := some 25, city := none, bio := none,
    tags := [], photoUrl := photoUrl 2 }

/-- The serialization of user 3 in the overlap scenario. -/
def pOv3 : Profile :=
  { id := 3, name := "B", age := some 25, city := none, bio := none,
    tags := [], photoUrl := photoUrl 3 }

/-- Counterexample to C2 as stated: with the identity shuffle (one of the
orders ORDER BY RANDOM() may produce) on dbOverlap, the route returns the
zero-overlap profile of user 2 before the two-overlap profile of user 3,
so the returned list is not ordered by tag overlap with the requester. -/
theorem discovery_not_sorted_by_overlap :
    ¬ List.Pairwise (fun p q : Profile =>
        sharedTagCount dbOverlap 1 q.id ≤ sharedTagCount dbOverlap 1 p.id)
      (get_profiles (fun l => l) dbOverlap 1 18 99 "" 0) := by
  intro h
  have hl : get_profiles (fun l => l) dbOverlap 1 18 99 "" 0 = [pOv2, pOv3] := by decide
  rw [hl, List.pairwise_cons] at h
  have h2 := h.1 pOv3 (List.mem_cons_self _ _)
  revert h2
  decide

/-- Claim C2 (amended): the discovery route returns the filtered
candidates in whatever order the SQL RANDOM() shuffle yields, with no
tag-overlap sort: replacing the user_tags and tags tables arbitrarily
leaves the identity and order of the returned profiles unchanged. -/
theorem discovery_order_ignores_tags (shuffle : List UserRow → List UserRow)
    (st : DB) (ut1 ut2 : List (Int × Int)) (tg1 tg2 : List TagRow)
    (uid amin amax : Int) (city : String) (now : Int) :
    (get_profiles shuffle { st with userTags := ut1, tags := tg1 } uid amin amax city now).map
        (fun p => p.id) =
      (get_profiles shuffle { st with userTags := ut2, tags := tg2 } uid amin amax city now).map
        (fun p => p.id) := by
  simp only [get_profiles, List.map_map]
  rfl

/-- Claim C3: the init-data HMAC check is a single deterministic function:
evaluating it twice on equal bot tokens, equal init-data pairs and equal
supplied hashes yields equal results. -/
theorem init_data_check_deterministic (bt1 bt2 : String)
    (p1 p2 : List (String × String)) (ph1 ph2 : String)
    (hb : bt1 = bt2) (hp : p1 = p2) (hh : ph1 = ph2) :
    validate_init_data bt1 p1 ph1 = validate_init_data bt2 p2 ph2 := by
  subst hb
  subst hp
  subst hh
  rfl

/-- Witness for C3 at a concrete input. -/
theorem init_data_check_deterministic_witness :
    ("token" : String) = "token" ∧
    ([("auth_date", "0")] : List (String × String)) = [("auth_date", "0")] ∧
    ("00" : String) = "00" ∧
    validate_init_data "token" [("auth_date", "0")] "00" =
      validate_init_data "token" [("auth_date", "0")] "00" :=
  ⟨rfl, rfl, rfl,
   init_data_check_deterministic "token" "token" [("auth_date", "0")] [("auth_date", "0")]
     "00" "00" rfl rfl rfl⟩
